import Mathlib

/-!
Verification of the SecureRAG query pipeline (`engine.py`, `schemas.py`)
against its natural-language specification.

The embedding models:
- JSON values and a parser mirroring Python's `json.loads` (numbers are
  modelled as integers, `\u` surrogate pairs and non-ASCII escaping are
  elided; neither is exercised by any claim);
- the three-strategy JSON extraction of
  `SecureRAGEngine._extract_json_from_response`, including the exact lazy
  (non-greedy) semantics of the two `re.search` patterns it uses;
- the synchronous `SecureRAGEngine.query` pipeline and the streaming
  `SecureRAGEngine.query_stream` pipeline, with external collaborators
  (retriever, LLM, memory backend) supplied as explicit outcomes and all
  collaborator calls recorded as events;
- the dual-backend `ConversationMemory` (in-process dict vs Redis list).
  For the Redis backend the wire format is JSON strings via
  `json.dumps`/`json.loads`, which are mutually inverse; the model stores
  the decoded messages and models `LRANGE` index semantics exactly.
-/

namespace SecureRAG

/-- A JSON value, as produced by Python's `json.loads`.  Numbers are
modelled as integers (no claim involves fractional literals). -/
inductive Json where
  | null : Json
  | bool (b : Bool) : Json
  | num (n : Int) : Json
  | str (s : String) : Json
  | arr (elems : List Json) : Json
  | obj (fields : List (String × Json)) : Json
  deriving Repr

-- Characters written via code points so that braces and backticks never
-- appear as character literals in the file.
def lbrace : Char := Char.ofNat 123

def rbrace : Char := Char.ofNat 125

def btick : Char := Char.ofNat 96

-- JSON whitespace accepted by Python's json module: space, tab, LF, CR.
def jsonWs (c : Char) : Bool := c = ' ' || c = '\t' || c = '\n' || c = '\r'

def skipWs (cs : List Char) : List Char := cs.dropWhile jsonWs

def hexVal (c : Char) : Option Nat :=
  let n := c.toNat
  if 48 ≤ n && n ≤ 57 then some (n - 48)
  else if 97 ≤ n && n ≤ 102 then some (n - 87)
  else if 65 ≤ n && n ≤ 70 then some (n - 55)
  else none

def simpleEscape (e : Char) : Option Char :=
  if e = '"' then some '"'
  else if e = '\\' then some '\\'
  else if e = '/' then some '/'
  else if e = 'n' then some '\n'
  else if e = 't' then some '\t'
  else if e = 'r' then some '\r'
  else if e = 'b' then some (Char.ofNat 8)
  else if e = 'f' then some (Char.ofNat 12)
  else none

-- Body of a JSON string literal, after the opening quote.  Rejects
-- unescaped control characters and invalid escapes, as Python does.
def parseStrAux : List Char → List Char → Option (String × List Char)
  | _, [] => none
  | acc, '"' :: rest => some (String.mk acc.reverse, rest)
  | acc, '\\' :: 'u' :: h1 :: h2 :: h3 :: h4 :: rest =>
    match hexVal h1, hexVal h2, hexVal h3, hexVal h4 with
    | some a, some b, some c, some d =>
      parseStrAux (Char.ofNat (((a * 16 + b) * 16 + c) * 16 + d) :: acc) rest
    | _, _, _, _ => none
  | acc, '\\' :: e :: rest =>
    match simpleEscape e with
    | some c => parseStrAux (c :: acc) rest
    | none => none
  | acc, c :: rest =>
    if c.toNat < 32 then none else parseStrAux (c :: acc) rest

def parseDigits : Nat → List Char → Nat × List Char
  | acc, [] => (acc, [])
  | acc, c :: rest =>
    if c.isDigit then parseDigits (acc * 10 + (c.toNat - 48)) rest
    else (acc, c :: rest)

-- An integer literal; a following '.', 'e' or 'E' (a float in Python)
-- is rejected by the model, see the module comment.
def parseNum (cs : List Char) : Option (Json × List Char) :=
  match cs with
  | '-' :: c :: rest =>
    if c.isDigit then
      match parseDigits 0 (c :: rest) with
      | (n, r) =>
        match r with
        | r0 :: _ =>
          if r0 = '.' || r0 = 'e' || r0 = 'E' then none
          else some (Json.num (-(n : Int)), r)
        | [] => some (Json.num (-(n : Int)), r)
    else none
  | c :: rest =>
    if c.isDigit then
      match parseDigits 0 (c :: rest) with
      | (n, r) =>
        match r with
        | r0 :: _ =>
          if r0 = '.' || r0 = 'e' || r0 = 'E' then none
          else some (Json.num (n : Int), r)
        | [] => some (Json.num (n : Int), r)
    else none
  | [] => none

mutual

def parseVal : Nat → List Char → Option (Json × List Char)
  | 0, _ => none
  | fuel + 1, cs =>
    match skipWs cs with
    | 'n' :: 'u' :: 'l' :: 'l' :: rest => some (Json.null, rest)
    | 't' :: 'r' :: 'u' :: 'e' :: rest => some (Json.bool true, rest)
    | 'f' :: 'a' :: 'l' :: 's' :: 'e' :: rest => some (Json.bool false, rest)
    | '"' :: rest => (parseStrAux [] rest).map (fun p => (Json.str p.1, p.2))
    | '[' :: rest =>
      (match skipWs rest with
       | ']' :: rest2 => some (Json.arr [], rest2)
       | other => parseElems fuel other [])
    | c :: rest =>
      if c = lbrace then
        (match skipWs rest with
         | c2 :: rest2 =>
           if c2 = rbrace then some (Json.obj [], rest2)
           else parseMembers fuel (c2 :: rest2) []
         | [] => none)
      else parseNum (c :: rest)
    | [] => none

def parseElems : Nat → List Char → List Json → Option (Json × List Char)
  | 0, _, _ => none
  | fuel + 1, cs, acc =>
    match parseVal fuel cs with
    | none => none
    | some (v, rest) =>
      match skipWs rest with
      | ',' :: rest2 => parseElems fuel rest2 (v :: acc)
      | ']' :: rest2 => some (Json.arr (v :: acc).reverse, rest2)
      | _ => none

def parseMembers : Nat → List Char → List (String × Json) → Option (Json × List Char)
  | 0, _, _ => none
  | fuel + 1, cs, acc =>
    match skipWs cs with
    | '"' :: rest =>
      (match parseStrAux [] rest with
       | none => none
       | some (k, rest2) =>
         match skipWs rest2 with
         | ':' :: rest3 =>
           (match parseVal fuel rest3 with
            | none => none
            | some (v, rest4) =>
              match skipWs rest4 with
              | ',' :: rest5 => parseMembers fuel rest5 ((k, v) :: acc)
              | c :: rest5 =>
                if c = rbrace then some (Json.obj ((k, v) :: acc).reverse, rest5)
                else none
              | [] => none)
         | _ => none)
    | _ => none

end

/-- Python's `json.loads`: one JSON value, surrounded only by whitespace. -/
def json_loads (s : String) : Option Json :=
  match parseVal (2 * s.length + 4) s.data with
  | some (j, rest) => if skipWs rest = [] then some j else none
  | none => none

/-! ### The two `re.search` patterns used by `_extract_json_from_response`

Both patterns use lazy quantifiers under `re.DOTALL`.  The fenced-block
pattern is three backticks, an optional `json` tag, whitespace, then a
lazily matched brace group followed by whitespace and three closing
backticks.  The bare pattern is a lazily matched brace group: it matches
from the first opening brace to the first closing brace after it. -/

-- Python `\s` over the ASCII range: space, tab, LF, CR, FF, VT
-- (non-ASCII whitespace elided; no claim exercises it).
def isReWs (c : Char) : Bool :=
  c = ' ' || c = '\t' || c = '\n' || c = '\r' || c = Char.ofNat 12 || c = Char.ofNat 11

def dropReWs (cs : List Char) : List Char := cs.dropWhile isReWs

-- After the closing brace of the candidate group: whitespace then three
-- closing backticks (greedy `\s*` is exact here since `\s` never matches
-- a backtick).
def fgTailOk (cs : List Char) : Bool :=
  match dropReWs cs with
  | a :: b :: c :: _ => a = btick && b = btick && c = btick
  | _ => false

-- The lazy group body: extend to the first closing brace whose tail
-- matches; a closing brace with a failing tail is absorbed into the body.
def fgFindEnd : List Char → List Char → Option (List Char)
  | _, [] => none
  | acc, c :: rest =>
    if c = rbrace then
      if fgTailOk rest then some acc.reverse else fgFindEnd (c :: acc) rest
    else fgFindEnd (c :: acc) rest

-- Attempt the fenced-block pattern anchored at the head of `cs`.  The
-- optional `json` tag is consumed exactly when present (if it is present
-- the non-consuming alternative can never match, since `j` is neither
-- whitespace nor an opening brace).
def fgTryAt (cs : List Char) : Option (List Char) :=
  match cs with
  | a :: b :: c :: rest =>
    if a = btick && b = btick && c = btick then
      let rest1 := if rest.take 4 = ['j', 's', 'o', 'n'] then rest.drop 4 else rest
      match dropReWs rest1 with
      | d :: rest2 =>
        if d = lbrace then
          (fgFindEnd [] rest2).map (fun content => lbrace :: (content ++ [rbrace]))
        else none
      | [] => none
    else none
  | _ => none

-- Leftmost search: try every start position from the left.
def fgSearch : List Char → Option (List Char)
  | [] => none
  | c :: rest =>
    match fgTryAt (c :: rest) with
    | some g => some g
    | none => fgSearch rest

/-- Group 1 of Python's three-backtick-fenced lazy brace-group search
applied to `response` (the second extraction strategy). -/
def fencedGroup (s : String) : Option String := (fgSearch s.data).map String.mk

-- Everything after the first opening brace, if any.
def bgAfter : List Char → Option (List Char)
  | [] => none
  | c :: rest => if c = lbrace then some rest else bgAfter rest

-- Everything up to (excluding) the first closing brace, if any.
def bgUpTo : List Char → Option (List Char)
  | [] => none
  | c :: rest => if c = rbrace then some [] else (bgUpTo rest).map (c :: ·)

/-- The lazy bare brace-group search (the third extraction strategy): the
match runs from the first opening brace to the first closing brace after
it. -/
def braceGroup (s : String) : Option String :=
  (bgAfter s.data).bind fun rest =>
    (bgUpTo rest).map fun content => String.mk (lbrace :: (content ++ [rbrace]))

/-! ### `SecureRAGEngine._extract_json_from_response` -/

/-- The universal fallback record of the extractor. -/
def rawFallback (response : String) : Json :=
  Json.obj [("answer", Json.str response), ("confidence", Json.str "low"),
            ("sources", Json.arr [])]

-- Third strategy, then the fallback.
def extractBraceStage (response : String) : Json :=
  match braceGroup response with
  | some g =>
    match json_loads g with
    | some j => j
    | none => rawFallback response
  | none => rawFallback response

/-- `SecureRAGEngine._extract_json_from_response`: direct parse, then the
fenced code block, then the first lazy brace group, then the raw-text
fallback. -/
def extract_json_from_response (response : String) : Json :=
  match json_loads response with
  | some j => j
  | none =>
    match fencedGroup response with
    | some g =>
      match json_loads g with
      | some j => j
      | none => extractBraceStage response
    | none => extractBraceStage response

/-! ### Python dict operations on the parsed records -/

/-- Python `k in d`. -/
def hasKey (kvs : List (String × Json)) (k : String) : Bool :=
  kvs.any (fun p => p.1 = k)

/-- Python `d[k]` as an option (last binding wins, as in a dict built by
successive insertion). -/
def jGet (kvs : List (String × Json)) (k : String) : Option Json :=
  ((kvs.filter (fun p => p.1 = k)).getLast?).map Prod.snd

/-- Python `d.get(k, default)`. -/
def jGetD (kvs : List (String × Json)) (k : String) (d : Json) : Json :=
  (jGet kvs k).getD d

/-- Lines 172–196 of `engine.py`: run the extractor, require a dict
(anything else raises `ValueError`, caught by the inner handler which
substitutes the fallback record), then backfill the three required keys. -/
def extract_result (raw : String) : List (String × Json) :=
  match extract_json_from_response raw with
  | Json.obj kvs =>
    let kvs1 := if hasKey kvs "answer" then kvs else kvs ++ [("answer", Json.str raw)]
    let kvs2 := if hasKey kvs1 "confidence" then kvs1
                else kvs1 ++ [("confidence", Json.str "low")]
    if hasKey kvs2 "sources" then kvs2 else kvs2 ++ [("sources", Json.arr [])]
  | _ => [("answer", Json.str raw), ("confidence", Json.str "low"),
          ("sources", Json.arr [])]

/-! ### Retrieval output and prompt composition -/

/-- One retrieved document: `page_content` plus `metadata.get("source")`
(absent metadata key modelled as `none`, read back with default
`"unknown"`). -/
structure Passage where
  page_content : String
  source : Option String
  deriving Repr, DecidableEq

/-- `SecureRAGEngine._format_docs`, shared by both pipelines. -/
def format_docs (docs : List Passage) : String :=
  docs.foldl
    (fun context doc =>
      context ++ "Source: " ++ doc.source.getD "unknown" ++ "\nContent: " ++
        doc.page_content ++ "\n\n")
    ""

/-- The system message produced by the `ChatPromptTemplate` of
`_build_chain` after substituting `context` (template doubled braces
render as single braces). -/
def syncSystemPrompt (context : String) : String :=
  "\n        You are a secure AI assistant. \n        Answer the user question based ONLY on the following Context.\n        \n        Context:\n        "
    ++ context ++
  "\n        \n        Rules:\n        1. If the answer is present, extract it and cite sources. Set confidence to \"high\".\n        2. If the answer is missing, return exactly: \"I do not have enough information in the provided documents.\" and set confidence to \"low\".\n        3. OUTPUT FORMAT: Return ONLY a valid JSON object (no markdown, no code blocks, no extra text). Example:\n        \x7b\"answer\": \"Your answer here\", \"confidence\": \"high\", \"sources\": [\"file1.txt\"]\x7d\n        "

/-- The f-string system prompt composed inside `query_stream`. -/
def streamSystemPrompt (context : String) : String :=
  "\n            You are a secure AI assistant. \n            Answer the user question based ONLY on the following Context.\n            \n            Context:\n            "
    ++ context ++
  "\n            \n            Rules:\n            1. If the answer is present, extract it and cite sources.\n            2. If the answer is missing, return: \"I do not have enough information.\"\n            "

/-! ### The synchronous pipeline `SecureRAGEngine.query`

External collaborators (the history read, the retriever, the LLM call and
the two memory appends of one turn) are supplied as explicit outcomes;
every collaborator call the pipeline performs is recorded as an event, in
call order. -/

/-- One conversation turn (`{"role": ..., "content": ...}`).  `content`
is a `Json` value: the assistant turn is `result.get("answer", "")`,
which need not be a string. -/
structure Message where
  role : String
  content : Json
  deriving Repr

/-- A collaborator call made by the pipeline. -/
inductive Event where
  | getHistory (session : String)
  | retrieve (question : String)
  | generate (system user : String)
  | append (session role : String) (content : Json)
  deriving Repr

/-- Outcomes of the collaborators for one synchronous call. -/
structure Collab where
  hist : Except String (List Message)
  docs : Except String (List Passage)
  gen : Except String String
  addUser : Except String Unit
  addAsst : Except String Unit

/-- What one synchronous call produced: the returned record, the
collaborator calls attempted (in order), and the successful memory
appends. -/
structure QueryOutcome where
  result : List (String × Json)
  events : List Event
  appended : List (String × Message)
  deriving Repr

/-- The record returned by the input guard (a `RAGResponse` built from
literals and dumped; its `answer` validator strips, a no-op here). -/
def tooShortResult : List (String × Json) :=
  [("answer", Json.str "Query too short."), ("confidence", Json.str "low"),
   ("sources", Json.arr [])]

/-- The record produced by the outer exception handler of `query`. -/
def systemErrorResult (e : String) : List (String × Json) :=
  [("answer", Json.str ("System Error: " ++ e)), ("confidence", Json.str "low"),
   ("sources", Json.arr [])]

/-- Python truthiness of `self.memory and session_id`: memory enabled and
a non-`None`, non-empty session id. -/
def memSession (memEnabled : Bool) (sid : Option String) : Option String :=
  if memEnabled then
    match sid with
    | some s => if s = "" then none else some s
    | none => none
  else none

-- Steps 3–4 shared by both memory modes: `chain.invoke` (retrieval,
-- prompt composition, LLM) followed by extraction and backfill.
def genStage (c : Collab) (user_query : String) :
    Except (String × List Event) (List (String × Json) × List Event) :=
  match c.docs with
  | .error e => .error (e, [.retrieve user_query])
  | .ok docs =>
    let sys := syncSystemPrompt (format_docs docs)
    match c.gen with
    | .error e => .error (e, [.retrieve user_query, .generate sys user_query])
    | .ok raw => .ok (extract_result raw, [.retrieve user_query, .generate sys user_query])

/-- `SecureRAGEngine.query`: input guard, optional history read, the
chain, extraction with backfill, optional memory persistence; every
failure past the guard is caught and converted to a system-error record. -/
def query (c : Collab) (memEnabled : Bool) (user_query : String)
    (session_id : Option String) : QueryOutcome :=
  if user_query.length < 3 then
    ⟨tooShortResult, [], []⟩
  else
    match memSession memEnabled session_id with
    | none =>
      (match genStage c user_query with
       | .error (e, evs) => ⟨systemErrorResult e, evs, []⟩
       | .ok (result, evs) => ⟨result, evs, []⟩)
    | some s =>
      match c.hist with
      | .error e => ⟨systemErrorResult e, [.getHistory s], []⟩
      | .ok _ =>
        match genStage c user_query with
        | .error (e, evs) => ⟨systemErrorResult e, .getHistory s :: evs, []⟩
        | .ok (result, evs) =>
          let userMsg : Message := ⟨"user", Json.str user_query⟩
          let asstMsg : Message := ⟨"assistant", jGetD result "answer" (Json.str "")⟩
          match c.addUser with
          | .error e =>
            ⟨systemErrorResult e,
             (Event.getHistory s :: evs) ++ [.append s "user" userMsg.content], []⟩
          | .ok _ =>
            match c.addAsst with
            | .error e =>
              ⟨systemErrorResult e,
               (Event.getHistory s :: evs) ++
                 [.append s "user" userMsg.content, .append s "assistant" asstMsg.content],
               [(s, userMsg)]⟩
            | .ok _ =>
              ⟨result,
               (Event.getHistory s :: evs) ++
                 [.append s "user" userMsg.content, .append s "assistant" asstMsg.content],
               [(s, userMsg), (s, asstMsg)]⟩

/-! ### The streaming pipeline `SecureRAGEngine.query_stream` -/

/-- Collaborator outcomes for one streaming call: the retrieval outcome,
the fragments the streaming LLM produced (in order), whether the stream
then raised instead of terminating normally, and the outcomes of the two
memory appends. -/
structure StreamCollab where
  docs : Except String (List Passage)
  chunks : List String
  streamErr : Option String
  addUser : Except String Unit
  addAsst : Except String Unit

/-- One observable step of the streaming call: a fragment yielded to the
caller or a collaborator call, in timeline order. -/
inductive StreamStep where
  | yielded (frag : String)
  | called (e : Event)
  deriving Repr

/-- What one streaming call produced. -/
structure StreamOutcome where
  timeline : List StreamStep
  appended : List (String × Message)
  deriving Repr

/-- `json.dumps({"error": str(e)})` (JSON escaping of the message body is
elided; no claim exercises it). -/
def errFragment (e : String) : String :=
  "\x7b\"error\": \"" ++ e ++ "\"\x7d"

/-- `SecureRAGEngine.query_stream`: guard, eager retrieval and prompt
composition, fragment-by-fragment streaming (empty fragments are neither
yielded nor accumulated), then all-at-once memory persistence; any
failure yields one error fragment and ends the stream. -/
def query_stream (c : StreamCollab) (memEnabled : Bool) (user_query : String)
    (session_id : Option String) : StreamOutcome :=
  if user_query.length < 3 then
    ⟨[.yielded (errFragment "Query too short")], []⟩
  else
    match c.docs with
    | .error e => ⟨[.called (.retrieve user_query), .yielded (errFragment e)], []⟩
    | .ok docs =>
      let sys := streamSystemPrompt (format_docs docs)
      let yields := (c.chunks.filter (fun ch => ch != "")).map StreamStep.yielded
      let full := (c.chunks.filter (fun ch => ch != "")).foldl (· ++ ·) ""
      let head := [StreamStep.called (.retrieve user_query),
                   StreamStep.called (.generate sys user_query)]
      match c.streamErr with
      | some e => ⟨head ++ yields ++ [.yielded (errFragment e)], []⟩
      | none =>
        match memSession memEnabled session_id with
        | none => ⟨head ++ yields, []⟩
        | some s =>
          match c.addUser with
          | .error e =>
            ⟨head ++ yields ++
               [.called (.append s "user" (Json.str user_query)),
                .yielded (errFragment e)], []⟩
          | .ok _ =>
            match c.addAsst with
            | .error e =>
              ⟨head ++ yields ++
                 [.called (.append s "user" (Json.str user_query)),
                  .called (.append s "assistant" (Json.str full)),
                  .yielded (errFragment e)],
               [(s, ⟨"user", Json.str user_query⟩)]⟩
            | .ok _ =>
              ⟨head ++ yields ++
                 [.called (.append s "user" (Json.str user_query)),
                  .called (.append s "assistant" (Json.str full))],
               [(s, ⟨"user", Json.str user_query⟩), (s, ⟨"assistant", Json.str full⟩)]⟩

/-! ### `ConversationMemory`: the two backends

Sessions map to ordered message lists.  The Redis backend keys lists by
`"conversation:" ++ session_id` and slices with `LRANGE key -limit -1`;
the in-memory backend slices with the Python slice `[-limit:]`.  The
Redis wire format (`json.dumps`/`json.loads`, mutually inverse) and the
TTL refresh are elided, see the module comment. -/

/-- The Python slice `l[-limit:]` (note `-0 = 0`: a zero limit yields the
whole list). -/
def pySliceLast {α : Type} (l : List α) (limit : Int) : List α :=
  if 0 < limit then l.drop (l.length - limit.toNat)
  else if limit = 0 then l
  else l.drop (-limit).toNat

/-- Redis `LRANGE` index semantics: negative indices count from the end,
the start is clamped at zero, the stop at the last element; an inverted
range is empty. -/
def redisLrange {α : Type} (l : List α) (start stop : Int) : List α :=
  let n : Int := l.length
  let s := if start < 0 then max (n + start) 0 else start
  let e0 := if stop < 0 then n + stop else stop
  let e := min e0 (n - 1)
  if s > e then [] else (l.drop s.toNat).take (e - s + 1).toNat

/-- Dict/keyspace lookup (keys are unique). -/
def storeLookup (store : List (String × List Message)) (k : String) :
    Option (List Message) :=
  (store.find? (fun p => p.1 == k)).map Prod.snd

/-- Dict/keyspace update, inserting the key if absent. -/
def storeSet : List (String × List Message) → String → List Message →
    List (String × List Message)
  | [], k, msgs => [(k, msgs)]
  | (k', v) :: rest, k, msgs =>
    if k' = k then (k', msgs) :: rest else (k', v) :: storeSet rest k msgs

/-- `ConversationMemory.add_message`, in-memory branch. -/
def ephAdd (store : List (String × List Message)) (sid role : String)
    (content : Json) : List (String × List Message) :=
  storeSet store sid ((storeLookup store sid).getD [] ++ [⟨role, content⟩])

/-- `ConversationMemory.get_history`, in-memory branch:
`memory_store.get(session_id, [])[-limit:]`. -/
def ephHistory (store : List (String × List Message)) (sid : String)
    (limit : Int) : List Message :=
  pySliceLast ((storeLookup store sid).getD []) limit

/-- `ConversationMemory.add_message`, Redis branch: `RPUSH` on the
session key (TTL refresh elided). -/
def durAdd (store : List (String × List Message)) (sid role : String)
    (content : Json) : List (String × List Message) :=
  let key := "conversation:" ++ sid
  storeSet store key ((storeLookup store key).getD [] ++ [⟨role, content⟩])

/-- `ConversationMemory.get_history`, Redis branch:
`LRANGE key -limit -1` (an absent key is the empty list). -/
def durHistory (store : List (String × List Message)) (sid : String)
    (limit : Int) : List Message :=
  redisLrange ((storeLookup store ("conversation:" ++ sid)).getD []) (-limit) (-1)

/-- Appending a whole sequence of messages to one session, in-memory
backend. -/
def ephAddAll (store : List (String × List Message)) (sid : String)
    (msgs : List Message) : List (String × List Message) :=
  msgs.foldl (fun st m => ephAdd st sid m.role m.content) store

/-- Appending a whole sequence of messages to one session, Redis
backend. -/
def durAddAll (store : List (String × List Message)) (sid : String)
    (msgs : List Message) : List (String × List Message) :=
  msgs.foldl (fun st m => durAdd st sid m.role m.content) store

/-! ### Auxiliary definitions for the claims -/

/-- Key membership of the extractor's candidate object, `false` for
non-objects. -/
def hasObjKey : Json → String → Bool
  | Json.obj kvs, k => hasKey kvs k
  | _, _ => false

-- Python `str.strip()` default whitespace.
def isPyWs (c : Char) : Bool :=
  c = ' ' || c = '\t' || c = '\n' || c = '\r' || c = Char.ofNat 12 || c = Char.ofNat 11

/-- Python `s.strip()` (the "trimming" of the spec). -/
def pyStrip (s : String) : String :=
  String.mk (((s.data.dropWhile isPyWs).reverse.dropWhile isPyWs).reverse)

-- A collaborator whose generation emits a well-formed JSON object whose
-- `confidence` lies outside the enum and whose `answer` is empty.
def cBanana : Collab :=
  ⟨.ok [], .ok [],
   .ok "\x7b\"answer\": \"\", \"confidence\": \"banana\", \"sources\": []\x7d",
   .ok (), .ok ()⟩

-- A collaborator whose retrieval is down.
def cDown : Collab := ⟨.ok [], .error "index down", .error "llm down", .ok (), .ok ()⟩

-- A generation output containing (only) a nested-brace object literal.
def ex5raw : String := "Here: \x7b\"answer\": \x7b\"x\": 1\x7d\x7d end"

/-- The fragments a streaming timeline yields, in order. -/
def fragmentsOf (tl : List StreamStep) : List String :=
  tl.filterMap (fun st =>
    match st with
    | .yielded f => some f
    | .called _ => none)

/-- Left-to-right concatenation, as the `full_response += chunk.content`
loop performs it; applied to all chunks it is the raw streamed output. -/
def concatAll (l : List String) : String := l.foldl (· ++ ·) ""

-- Fifteen messages, as in the spec's bounded-history test.
def msgs15 : List Message :=
  (List.range 15).map (fun i => ⟨"user", Json.str ("Message " ++ toString i)⟩)

-- A streaming collaborator that completes normally.
def sDemo : StreamCollab :=
  ⟨.ok [⟨"alpha", some "a.txt"⟩], ["Hel", "", "lo"], none, .ok (), .ok ()⟩

-- A streaming collaborator that fails mid-stream after one fragment.
def sErr : StreamCollab :=
  ⟨.ok [⟨"alpha", some "a.txt"⟩], ["Hel"], some "mid fail", .ok (), .ok ()⟩

-- A synchronous collaborator with one retrieved passage.
def cDemoDocs : Collab :=
  ⟨.ok [], .ok [⟨"alpha", some "a.txt"⟩], .ok "plain text answer", .ok (), .ok ()⟩

-- A synchronous collaborator whose assistant-turn append fails.
def cAsstFail : Collab :=
  ⟨.ok [], .ok [], .ok "plain text answer", .ok (), .error "redis gone"⟩

-- A synchronous collaborator whose user-turn append fails.
def cUserFail : Collab :=
  ⟨.ok [], .ok [], .ok "plain text answer", .error "redis gone", .ok ()⟩

/-! ## Helper lemmas -/

theorem hasKey_append (kvs l : List (String × Json)) (k : String) :
    hasKey (kvs ++ l) k = (hasKey kvs k || hasKey l k) := by
  simp [hasKey, List.any_append]

theorem jGet_concat (kvs : List (String × Json)) (k k' : String) (v : Json) :
    jGet (kvs ++ [(k', v)]) k = if k' = k then some v else jGet kvs k := by
  by_cases h : k' = k <;>
    simp [jGet, List.filter_append, h, List.getLast?_concat]

theorem extract_result_hasKey_all (raw : String) :
    hasKey (extract_result raw) "answer" = true ∧
    hasKey (extract_result raw) "confidence" = true ∧
    hasKey (extract_result raw) "sources" = true := by
  rcases h : extract_json_from_response raw with _ | b | n | s | elems | kvs
  case obj =>
    simp only [extract_result, h]
    split_ifs <;> simp_all [hasKey_append, hasKey]
  all_goals simp [extract_result, h, hasKey]

theorem extract_result_backfill (raw : String) :
    (hasObjKey (extract_json_from_response raw) "answer" = false →
      jGet (extract_result raw) "answer" = some (Json.str raw)) ∧
    (hasObjKey (extract_json_from_response raw) "confidence" = false →
      jGet (extract_result raw) "confidence" = some (Json.str "low")) ∧
    (hasObjKey (extract_json_from_response raw) "sources" = false →
      jGet (extract_result raw) "sources" = some (Json.arr [])) := by
  rcases h : extract_json_from_response raw with _ | b | n | s | elems | kvs
  case obj =>
    simp only [extract_result, hasObjKey, h]
    split_ifs <;> simp_all [hasKey, jGet, List.filter_append, List.getLast?_concat]
  all_goals simp only [extract_result, hasObjKey, h]
  all_goals exact ⟨fun _ => rfl, fun _ => rfl, fun _ => rfl⟩

/-- Every branch of `query` returns one of the three record shapes. -/
theorem query_result_cases (c : Collab) (memEnabled : Bool) (q : String)
    (sid : Option String) :
    (query c memEnabled q sid).result = tooShortResult ∨
    (∃ e, (query c memEnabled q sid).result = systemErrorResult e) ∨
    (∃ raw, c.gen = .ok raw ∧ (query c memEnabled q sid).result = extract_result raw) := by
  unfold query genStage
  split_ifs
  · exact Or.inl rfl
  rcases memSession memEnabled sid with _ | s <;>
    rcases hh : c.hist with e | hl <;>
    rcases hd : c.docs with e | docs <;>
    rcases hg : c.gen with e | raw <;>
    simp only [] <;>
    first
      | exact Or.inr (Or.inl ⟨_, rfl⟩)
      | (rcases c.addUser with e' | u
         · exact Or.inr (Or.inl ⟨_, rfl⟩)
         rcases c.addAsst with e' | u'
         · exact Or.inr (Or.inl ⟨_, rfl⟩)
         · exact Or.inr (Or.inr ⟨raw, rfl, rfl⟩))
      | exact Or.inr (Or.inr ⟨raw, rfl, rfl⟩)

/-! ## Claim C3 -/

/-- C3: for every raw generation string, extraction plus key backfill
(the guarded block at lines 172–196 of `engine.py`) is total and returns
a record containing all three keys `answer`, `confidence`, `sources`;
any key the extracted candidate lacks is backfilled as
`answer = raw`, `confidence = "low"`, `sources = []`. -/
theorem C3_extractor_total_backfilled (raw : String) :
    (hasKey (extract_result raw) "answer" = true ∧
     hasKey (extract_result raw) "confidence" = true ∧
     hasKey (extract_result raw) "sources" = true) ∧
    (hasObjKey (extract_json_from_response raw) "answer" = false →
      jGet (extract_result raw) "answer" = some (Json.str raw)) ∧
    (hasObjKey (extract_json_from_response raw) "confidence" = false →
      jGet (extract_result raw) "confidence" = some (Json.str "low")) ∧
    (hasObjKey (extract_json_from_response raw) "sources" = false →
      jGet (extract_result raw) "sources" = some (Json.arr [])) :=
  ⟨extract_result_hasKey_all raw, extract_result_backfill raw⟩

/-- Witness for C3 at a generation output that parses to an object
missing the `confidence` and `sources` keys. -/
theorem C3_extractor_total_backfilled_witness :
    (hasKey (extract_result "\x7b\"answer\": \"hi the\"\x7d") "answer" = true ∧
     hasKey (extract_result "\x7b\"answer\": \"hi the\"\x7d") "confidence" = true ∧
     hasKey (extract_result "\x7b\"answer\": \"hi the\"\x7d") "sources" = true) ∧
    jGet (extract_result "\x7b\"answer\": \"hi the\"\x7d") "confidence" =
      some (Json.str "low") ∧
    jGet (extract_result "\x7b\"answer\": \"hi the\"\x7d") "sources" =
      some (Json.arr []) :=
  ⟨(C3_extractor_total_backfilled "\x7b\"answer\": \"hi the\"\x7d").1,
   (C3_extractor_total_backfilled "\x7b\"answer\": \"hi the\"\x7d").2.2.1 (by decide),
   (C3_extractor_total_backfilled "\x7b\"answer\": \"hi the\"\x7d").2.2.2 (by decide)⟩

/-! ## Claim C1 -/

/-- C1 is false on the code: `query` performs no validation of the
extracted record, so a generation output carrying
`confidence = "banana"` and an empty `answer` is returned untouched —
the confidence is not coerced to `"low"` and the trimmed answer is
empty, not 5–1000 characters. -/
theorem C1_counterexample :
    jGet (query cBanana false "what is x" none).result "confidence" =
      some (Json.str "banana") ∧
    Json.str "banana" ≠ Json.str "high" ∧
    Json.str "banana" ≠ Json.str "medium" ∧
    Json.str "banana" ≠ Json.str "low" ∧
    jGet (query cBanana false "what is x" none).result "answer" =
      some (Json.str "") ∧
    (pyStrip "").length = 0 :=
  ⟨rfl, by simp, by simp, by simp, rfl, rfl⟩

/-- C1 amended: every record `query` returns (guard result, system-error
result, or extracted result) contains all three keys `answer`,
`confidence` and `sources`; `confidence` defaults to `"low"` and
`sources` to `[]` only when the key is missing from the generation
output — present values pass through unvalidated. -/
theorem C1_amended_keys_always_present (c : Collab) (memEnabled : Bool)
    (q : String) (sid : Option String) :
    hasKey (query c memEnabled q sid).result "answer" = true ∧
    hasKey (query c memEnabled q sid).result "confidence" = true ∧
    hasKey (query c memEnabled q sid).result "sources" = true := by
  rcases query_result_cases c memEnabled q sid with h | ⟨e, h⟩ | ⟨raw, _, h⟩ <;> rw [h]
  · decide
  · simp [systemErrorResult, hasKey]
  · exact extract_result_hasKey_all raw

/-! ## Claim C2 -/

/-- C2 is false as stated: the input guard tests the raw length
(`len(user_query) < 3`), not the trimmed length.  The input
query `"a  "` has trimmed length 1 but raw length 3, so the pipeline
proceeds: two collaborator calls happen and the result is not the fixed
guard record. -/
theorem C2_counterexample :
    (pyStrip "a  ").length < 3 ∧
    (query cBanana false "a  " none).events.length = 2 ∧
    (query cBanana false "a  " none).result ≠ tooShortResult := by
  refine ⟨by decide, rfl, ?_⟩
  have h : (query cBanana false "a  " none).result =
      [("answer", Json.str ""), ("confidence", Json.str "banana"),
       ("sources", Json.arr [])] := rfl
  rw [h]
  simp [tooShortResult]

/-- C2 amended: for every input string of raw length < 3, `query`
short-circuits with the fixed guard record and performs no collaborator
call and no memory append. -/
theorem C2_amended_raw_length_guard (q : String) (c : Collab) (memEnabled : Bool)
    (sid : Option String) (h : q.length < 3) :
    query c memEnabled q sid = ⟨tooShortResult, [], []⟩ := by
  simp [query, h]

/-- Witness for the amended C2 at the one-character query. -/
theorem C2_amended_raw_length_guard_witness :
    ("a" : String).length < 3 ∧
    query cBanana false "a" none = ⟨tooShortResult, [], []⟩ :=
  ⟨by decide, C2_amended_raw_length_guard "a" cBanana false none (by decide)⟩

/-! ## Claim C4 -/

/-- C4: past the input guard (and with the optional history read
succeeding), a retrieval failure or a generation failure is caught and
converted into the `"System Error: <message>"` record at confidence
`"low"`; `query` is a total function, so no failure propagates. -/
theorem C4_system_error_conversion (c : Collab) (memEnabled : Bool) (q : String)
    (sid : Option String) (e : String) (hl : List Message)
    (hlen : ¬ q.length < 3) (hhist : c.hist = .ok hl) :
    (c.docs = .error e → (query c memEnabled q sid).result = systemErrorResult e) ∧
    (∀ docs, c.docs = .ok docs → c.gen = .error e →
      (query c memEnabled q sid).result = systemErrorResult e) := by
  constructor
  · intro hd
    rcases hms : memSession memEnabled sid with _ | s <;>
      simp [query, hlen, hms, genStage, hd, hhist]
  · intro docs hd hg
    rcases hms : memSession memEnabled sid with _ | s <;>
      simp [query, hlen, hms, genStage, hd, hg, hhist]

/-- Witness for C4: a concrete retrieval failure surfaces as the
system-error record. -/
theorem C4_system_error_conversion_witness :
    (query cDown false "what is x" none).result = systemErrorResult "index down" :=
  (C4_system_error_conversion cDown false "what is x" none "index down" []
    (by decide) rfl).1 rfl

/-! ## Claim C5 -/

/-- C5 is false as stated: the bare brace scan `\x7b.*?\x7d` is lazy, not
balanced/greedy.  On a response containing the nested object literal
`\x7b"answer": \x7b"x": 1\x7d\x7d` (and no fenced block, not directly
parseable), the scan captures only up to the first closing brace, which
is not valid JSON, so extraction falls through to the raw-text fallback
instead of returning the object's record. -/
theorem C5_counterexample :
    json_loads ex5raw = none ∧
    fencedGroup ex5raw = none ∧
    json_loads "\x7b\"answer\": \x7b\"x\": 1\x7d\x7d" =
      some (Json.obj [("answer", Json.obj [("x", Json.num 1)])]) ∧
    braceGroup ex5raw = some "\x7b\"answer\": \x7b\"x\": 1\x7d" ∧
    extract_json_from_response ex5raw = rawFallback ex5raw ∧
    rawFallback ex5raw ≠ Json.obj [("answer", Json.obj [("x", Json.num 1)])] := by
  refine ⟨rfl, rfl, rfl, rfl, rfl, ?_⟩
  simp [rawFallback]

/-- C5 amended: the third extraction strategy matches lazily from the
first opening brace to the first closing brace after it; when that
substring parses, its record is returned; nested-brace object literals
are not recovered by this step. -/
theorem C5_amended_lazy_brace_scan (response g : String) (j : Json)
    (h1 : json_loads response = none) (h2 : fencedGroup response = none)
    (h3 : braceGroup response = some g) (h4 : json_loads g = some j) :
    extract_json_from_response response = j := by
  simp [extract_json_from_response, extractBraceStage, h1, h2, h3, h4]

/-- Witness for the amended C5: a flat object literal embedded in prose
is recovered by the lazy scan. -/
theorem C5_amended_lazy_brace_scan_witness :
    braceGroup "noise \x7b\"a\": 1\x7d tail" = some "\x7b\"a\": 1\x7d" ∧
    extract_json_from_response "noise \x7b\"a\": 1\x7d tail" =
      Json.obj [("a", Json.num 1)] :=
  ⟨rfl,
   C5_amended_lazy_brace_scan "noise \x7b\"a\": 1\x7d tail" "\x7b\"a\": 1\x7d"
     (Json.obj [("a", Json.num 1)]) rfl rfl rfl rfl⟩

/-! ## Claim C7 -/

theorem storeLookup_storeSet_self (store : List (String × List Message))
    (k : String) (v : List Message) :
    storeLookup (storeSet store k v) k = some v := by
  induction store with
  | nil => simp [storeSet, storeLookup]
  | cons p rest ih =>
    rcases p with ⟨k', v'⟩
    by_cases h : k' = k
    · simp [storeSet, storeLookup, h]
    · simpa [storeSet, storeLookup, h] using ih

theorem ephAddAll_lookup (msgs : List Message)
    (store : List (String × List Message)) (sid : String) :
    (storeLookup (ephAddAll store sid msgs) sid).getD [] =
      (storeLookup store sid).getD [] ++ msgs := by
  induction msgs generalizing store with
  | nil => simp [ephAddAll]
  | cons m rest ih =>
    have hstep : ephAddAll store sid (m :: rest) =
        ephAddAll (ephAdd store sid m.role m.content) sid rest := rfl
    rw [hstep, ih]
    simp [ephAdd, storeLookup_storeSet_self]

theorem durAddAll_lookup (msgs : List Message)
    (store : List (String × List Message)) (sid : String) :
    (storeLookup (durAddAll store sid msgs) ("conversation:" ++ sid)).getD [] =
      (storeLookup store ("conversation:" ++ sid)).getD [] ++ msgs := by
  induction msgs generalizing store with
  | nil => simp [durAddAll]
  | cons m rest ih =>
    have hstep : durAddAll store sid (m :: rest) =
        durAddAll (durAdd store sid m.role m.content) sid rest := rfl
    rw [hstep, ih]
    simp [durAdd, storeLookup_storeSet_self]

theorem pySliceLast_pos {α : Type} (l : List α) (limit : Int) (h : 1 ≤ limit) :
    pySliceLast l limit = l.drop (l.length - limit.toNat) := by
  have h0 : (0 : Int) < limit := by omega
  simp [pySliceLast, h0]

theorem redisLrange_last {α : Type} (l : List α) (limit : Int) (h : 1 ≤ limit) :
    redisLrange l (-limit) (-1) = l.drop (l.length - limit.toNat) := by
  unfold redisLrange
  have hneg : (-limit) < 0 := by omega
  have hstop : (-1 : Int) < 0 := by decide
  simp only [hneg, hstop, if_true, if_pos]
  rcases Nat.eq_zero_or_pos l.length with hn | hn
  · have hl : l = [] := List.length_eq_zero.mp hn
    subst hl
    norm_num
  · have hle : max ((l.length : Int) + -limit) 0 ≤
        min ((l.length : Int) + -1) ((l.length : Int) - 1) := by
      omega
    rw [if_neg (by omega)]
    have hs : (max ((l.length : Int) + -limit) 0).toNat = l.length - limit.toNat := by
      omega
    have hcount : (l.drop (max ((l.length : Int) + -limit) 0).toNat).length ≤
        (min ((l.length : Int) + -1) ((l.length : Int) - 1) -
          max ((l.length : Int) + -limit) 0 + 1).toNat := by
      rw [List.length_drop]
      omega
    rw [List.take_of_length_le hcount, hs]

/-- C7 is false as stated for limit 0: Python's `[-0:]` slice and Redis's
`LRANGE key 0 -1` both return the whole history, not the last zero
messages, so after one append `history` with limit 0 is non-empty on
both backends. -/
theorem C7_counterexample :
    ephHistory (ephAddAll [] "s" [⟨"user", Json.str "a"⟩]) "s" 0 ≠ [] ∧
    durHistory (durAddAll [] "s" [⟨"user", Json.str "a"⟩]) "s" 0 ≠ [] := by
  constructor
  · have h : ephHistory (ephAddAll [] "s" [⟨"user", Json.str "a"⟩]) "s" 0 =
        [⟨"user", Json.str "a"⟩] := rfl
    rw [h]
    exact List.cons_ne_nil _ _
  · have h : durHistory (durAddAll [] "s" [⟨"user", Json.str "a"⟩]) "s" 0 =
        [⟨"user", Json.str "a"⟩] := rfl
    rw [h]
    exact List.cons_ne_nil _ _

/-- C7 amended: for every positive limit, after appending a sequence of
messages to a fresh session both backends return the last `limit`
appended messages (all of them when fewer exist) in insertion order. -/
theorem C7_amended_bounded_history (msgs : List Message) (sid : String)
    (limit : Int) (h : 1 ≤ limit) :
    ephHistory (ephAddAll [] sid msgs) sid limit =
      msgs.drop (msgs.length - limit.toNat) ∧
    durHistory (durAddAll [] sid msgs) sid limit =
      msgs.drop (msgs.length - limit.toNat) := by
  constructor
  · have hl : (storeLookup (ephAddAll [] sid msgs) sid).getD [] = msgs := by
      rw [ephAddAll_lookup]
      simp [storeLookup]
    rw [ephHistory, hl, pySliceLast_pos _ _ h]
  · have hl : (storeLookup (durAddAll [] sid msgs) ("conversation:" ++ sid)).getD [] =
        msgs := by
      rw [durAddAll_lookup]
      simp [storeLookup]
    rw [durHistory, hl, redisLrange_last _ _ h]

/-- Witness for the amended C7: the spec's bounded-history example —
15 appended messages, limit 5, messages 10–14 in order, on both
backends. -/
theorem C7_amended_bounded_history_witness :
    ephHistory (ephAddAll [] "s" msgs15) "s" 5 = msgs15.drop 10 ∧
    durHistory (durAddAll [] "s" msgs15) "s" 5 = msgs15.drop 10 :=
  C7_amended_bounded_history msgs15 "s" 5 (by decide)

/-! ## Streaming helper lemmas -/

theorem fragmentsOf_map_yielded (l : List String) :
    fragmentsOf (l.map StreamStep.yielded) = l := by
  induction l with
  | nil => rfl
  | cons x xs ih => simp [fragmentsOf, List.filterMap_cons] at *; exact ih

theorem fragmentsOf_append (a b : List StreamStep) :
    fragmentsOf (a ++ b) = fragmentsOf a ++ fragmentsOf b := by
  simp [fragmentsOf, List.filterMap_append]

theorem fragmentsOf_nil : fragmentsOf [] = [] := rfl

theorem fragmentsOf_called_cons (e : Event) (tl : List StreamStep) :
    fragmentsOf (StreamStep.called e :: tl) = fragmentsOf tl := by
  simp [fragmentsOf, List.filterMap_cons]

theorem fragmentsOf_yielded_cons (f : String) (tl : List StreamStep) :
    fragmentsOf (StreamStep.yielded f :: tl) = f :: fragmentsOf tl := by
  simp [fragmentsOf, List.filterMap_cons]

/-- Skipping empty fragments does not change the concatenation: the
accumulated `full_response` equals the raw streamed output. -/
theorem foldl_append_filter_ne (l : List String) (init : String) :
    (l.filter (fun s => s != "")).foldl (· ++ ·) init = l.foldl (· ++ ·) init := by
  induction l generalizing init with
  | nil => rfl
  | cons x xs ih =>
    by_cases h : x = ""
    · subst h
      simpa [List.filter_cons] using ih init
    · simp only [List.filter_cons, bne_iff_ne, ne_eq, h, not_false_eq_true, if_pos,
        List.foldl_cons]
      exact ih (init ++ x)

theorem concatAll_filter_ne (l : List String) :
    concatAll (l.filter (fun s => s != "")) = concatAll l :=
  foldl_append_filter_ne l ""

/-! ## Claim C6 -/

/-- C6: if the streaming generation fails mid-stream, the timeline ends
with exactly one error-shaped fragment and nothing is appended to
memory; on successful completion the user turn and the fully assembled
assistant turn are appended only after every fragment has been yielded,
so memory never receives a partial assistant turn. -/
theorem C6_stream_all_or_nothing_persistence (c : StreamCollab) (memEnabled : Bool)
    (q : String) (sid : Option String) (docs : List Passage) (e : String)
    (hlen : ¬ q.length < 3) (hdocs : c.docs = .ok docs) :
    (c.streamErr = some e →
      (query_stream c memEnabled q sid).timeline =
        [StreamStep.called (.retrieve q),
         StreamStep.called (.generate (streamSystemPrompt (format_docs docs)) q)] ++
        (c.chunks.filter (fun ch => ch != "")).map StreamStep.yielded ++
        [StreamStep.yielded (errFragment e)] ∧
      (query_stream c memEnabled q sid).appended = []) ∧
    (∀ s, c.streamErr = none → memSession memEnabled sid = some s →
      c.addUser = .ok () → c.addAsst = .ok () →
      (query_stream c memEnabled q sid).timeline =
        [StreamStep.called (.retrieve q),
         StreamStep.called (.generate (streamSystemPrompt (format_docs docs)) q)] ++
        (c.chunks.filter (fun ch => ch != "")).map StreamStep.yielded ++
        [StreamStep.called (.append s "user" (Json.str q)),
         StreamStep.called (.append s "assistant" (Json.str (concatAll c.chunks)))] ∧
      (query_stream c memEnabled q sid).appended =
        [(s, ⟨"user", Json.str q⟩), (s, ⟨"assistant", Json.str (concatAll c.chunks)⟩)]) := by
  constructor
  · intro herr
    simp [query_stream, hlen, hdocs, herr]
  · intro s hnone hms hau haa
    simp [query_stream, hlen, hdocs, hnone, hms, hau, haa, concatAll,
      foldl_append_filter_ne]

/-- Witness for C6, first part: a concrete mid-stream failure. -/
theorem C6_stream_all_or_nothing_persistence_witness :
    (query_stream sErr true "what is x" (some "s1")).timeline =
      [StreamStep.called (.retrieve "what is x"),
       StreamStep.called (.generate
         (streamSystemPrompt (format_docs [⟨"alpha", some "a.txt"⟩])) "what is x")] ++
      [StreamStep.yielded "Hel"] ++
      [StreamStep.yielded (errFragment "mid fail")] ∧
    (query_stream sErr true "what is x" (some "s1")).appended = [] :=
  (C6_stream_all_or_nothing_persistence sErr true "what is x" (some "s1")
    [⟨"alpha", some "a.txt"⟩] "mid fail" (by decide) rfl).1 rfl

/-! ## Claim C10 -/

/-- C10: `query_stream` applies no extraction and no validation — the
concatenation of the yielded fragments is exactly the raw streamed
generation output, and that same raw text is what is persisted as the
assistant turn. -/
theorem C10_stream_raw_passthrough (c : StreamCollab) (memEnabled : Bool)
    (q : String) (sid : Option String) (docs : List Passage)
    (hlen : ¬ q.length < 3) (hdocs : c.docs = .ok docs)
    (hne : c.streamErr = none) (hau : c.addUser = .ok ()) (haa : c.addAsst = .ok ()) :
    concatAll (fragmentsOf (query_stream c memEnabled q sid).timeline) =
      concatAll c.chunks ∧
    (∀ s, memSession memEnabled sid = some s →
      (query_stream c memEnabled q sid).appended =
        [(s, ⟨"user", Json.str q⟩),
         (s, ⟨"assistant", Json.str (concatAll c.chunks)⟩)]) := by
  constructor
  · rcases hms : memSession memEnabled sid with _ | s <;>
      simp [query_stream, hlen, hdocs, hne, hms, hau, haa, fragmentsOf_append,
        fragmentsOf_map_yielded, fragmentsOf_called_cons, fragmentsOf_nil,
        concatAll_filter_ne]
  · intro s hms
    simp [query_stream, hlen, hdocs, hne, hms, hau, haa, concatAll,
      foldl_append_filter_ne]

/-- Witness for C10: three raw chunks (one empty) pass through, and the
assembled text is persisted verbatim. -/
theorem C10_stream_raw_passthrough_witness :
    concatAll (fragmentsOf (query_stream sDemo true "what is x" (some "s1")).timeline) =
      concatAll ["Hel", "", "lo"] ∧
    (query_stream sDemo true "what is x" (some "s1")).appended =
      [("s1", ⟨"user", Json.str "what is x"⟩),
       ("s1", ⟨"assistant", Json.str (concatAll ["Hel", "", "lo"])⟩)] :=
  ⟨(C10_stream_raw_passthrough sDemo true "what is x" (some "s1")
      [⟨"alpha", some "a.txt"⟩] (by decide) rfl rfl rfl rfl).1,
   (C10_stream_raw_passthrough sDemo true "what is x" (some "s1")
      [⟨"alpha", some "a.txt"⟩] (by decide) rfl rfl rfl rfl).2 "s1" rfl⟩

/-! ## Claim C8 -/

set_option maxRecDepth 8192 in
theorem syncSystemPrompt_length (ctx : String) :
    (syncSystemPrompt ctx).length = ctx.length + 614 := by
  have h1 : ("\n        You are a secure AI assistant. \n        Answer the user question based ONLY on the following Context.\n        \n        Context:\n        " : String).length = 145 := rfl
  have h2 : ("\n        \n        Rules:\n        1. If the answer is present, extract it and cite sources. Set confidence to \"high\".\n        2. If the answer is missing, return exactly: \"I do not have enough information in the provided documents.\" and set confidence to \"low\".\n        3. OUTPUT FORMAT: Return ONLY a valid JSON object (no markdown, no code blocks, no extra text). Example:\n        \x7b\"answer\": \"Your answer here\", \"confidence\": \"high\", \"sources\": [\"file1.txt\"]\x7d\n        " : String).length = 469 := rfl
  simp [syncSystemPrompt, String.length_append, h1, h2]
  omega

set_option maxRecDepth 8192 in
theorem streamSystemPrompt_length (ctx : String) :
    (streamSystemPrompt ctx).length = ctx.length + 365 := by
  have h1 : ("\n            You are a secure AI assistant. \n            Answer the user question based ONLY on the following Context.\n            \n            Context:\n            " : String).length = 165 := rfl
  have h2 : ("\n            \n            Rules:\n            1. If the answer is present, extract it and cite sources.\n            2. If the answer is missing, return: \"I do not have enough information.\"\n            " : String).length = 200 := rfl
  simp [streamSystemPrompt, String.length_append, h1, h2]
  omega

/-- For every grounding context the two pipelines compose different
system prompts (their lengths differ by a constant). -/
theorem syncPrompt_ne_streamPrompt (ctx : String) :
    syncSystemPrompt ctx ≠ streamSystemPrompt ctx := by
  intro h
  have := congrArg String.length h
  rw [syncSystemPrompt_length, streamSystemPrompt_length] at this
  omega

/-- C8 is false as stated: on the same retrieved passages (here: none)
the prompt composed by `query_stream` differs from the prompt composed
by the synchronous chain — the streaming prompt omits the JSON
output-format rule and the confidence instructions and uses a shorter
refusal string. -/
theorem C8_counterexample :
    syncSystemPrompt (format_docs []) ≠ streamSystemPrompt (format_docs []) :=
  syncPrompt_ne_streamPrompt (format_docs [])

set_option maxRecDepth 8192 in
/-- C8 amended: both pipelines issue the same retrieval call and build
the grounding context with the same per-passage formatting, and the
streaming pipeline performs retrieval and prompt composition eagerly,
before any fragment is yielded; but the prompt texts of the two paths
differ for every context. -/
theorem C8_amended_same_grounding_different_prompt (docs : List Passage)
    (q : String) (c : Collab) (sc : StreamCollab) (memEnabled : Bool)
    (sid : Option String) (hl : List Message)
    (hlen : ¬ q.length < 3) (hc : c.docs = .ok docs) (hsc : sc.docs = .ok docs)
    (hh : c.hist = .ok hl) :
    Event.retrieve q ∈ (query c memEnabled q sid).events ∧
    Event.generate (syncSystemPrompt (format_docs docs)) q ∈
      (query c memEnabled q sid).events ∧
    ((query_stream sc memEnabled q sid).timeline.take 2 =
      [StreamStep.called (.retrieve q),
       StreamStep.called (.generate (streamSystemPrompt (format_docs docs)) q)]) ∧
    (∀ ctx, syncSystemPrompt ctx ≠ streamSystemPrompt ctx) := by
  refine ⟨?_, ?_, ?_, syncPrompt_ne_streamPrompt⟩
  · rcases hms : memSession memEnabled sid with _ | s <;>
      rcases hg : c.gen with e | raw <;>
      rcases hau : c.addUser with e' | u <;>
      rcases haa : c.addAsst with e'' | u' <;>
      simp [query, hlen, hms, genStage, hc, hg, hh, hau, haa]
  · rcases hms : memSession memEnabled sid with _ | s <;>
      rcases hg : c.gen with e | raw <;>
      rcases hau : c.addUser with e' | u <;>
      rcases haa : c.addAsst with e'' | u' <;>
      simp [query, hlen, hms, genStage, hc, hg, hh, hau, haa]
  · rcases herr : sc.streamErr with _ | e
    · rcases hms : memSession memEnabled sid with _ | s <;>
        rcases hau : sc.addUser with e' | u <;>
        rcases haa : sc.addAsst with e'' | u' <;>
        simp [query_stream, hlen, hsc, herr, hms, hau, haa]
    · simp [query_stream, hlen, hsc, herr]

/-- Witness for the amended C8 at concrete collaborators. -/
theorem C8_amended_same_grounding_different_prompt_witness :
    Event.generate (syncSystemPrompt (format_docs [⟨"alpha", some "a.txt"⟩]))
        "what is x" ∈
      (query cDemoDocs false "what is x" none).events ∧
    (query_stream sDemo false "what is x" none).timeline.take 2 =
      [StreamStep.called (.retrieve "what is x"),
       StreamStep.called (.generate
         (streamSystemPrompt (format_docs [⟨"alpha", some "a.txt"⟩])) "what is x")] :=
  ⟨(C8_amended_same_grounding_different_prompt [⟨"alpha", some "a.txt"⟩] "what is x"
      cDemoDocs sDemo false none [] (by decide) rfl rfl rfl).2.1,
   (C8_amended_same_grounding_different_prompt [⟨"alpha", some "a.txt"⟩] "what is x"
      cDemoDocs sDemo false none [] (by decide) rfl rfl rfl).2.2.1⟩

/-! ## Claim C9 -/

/-- C9: in the synchronous path a memory-persistence failure (after
generation and extraction succeeded) is caught and converted into the
`"System Error: ..."` record at confidence `"low"`, discarding the
produced answer; and since the user turn is appended before the
assistant turn inside the same guarded region, a failing
assistant-turn append leaves the user turn persisted without a matching
assistant turn. -/
theorem C9_memory_failure_not_atomic (c : Collab) (memEnabled : Bool) (q : String)
    (sid : Option String) (s e : String) (hl : List Message)
    (docs : List Passage) (raw : String)
    (hlen : ¬ q.length < 3) (hms : memSession memEnabled sid = some s)
    (hh : c.hist = .ok hl) (hd : c.docs = .ok docs) (hg : c.gen = .ok raw) :
    (c.addUser = .error e →
      (query c memEnabled q sid).result = systemErrorResult e ∧
      (query c memEnabled q sid).appended = []) ∧
    (c.addUser = .ok () → c.addAsst = .error e →
      (query c memEnabled q sid).result = systemErrorResult e ∧
      (query c memEnabled q sid).appended = [(s, ⟨"user", Json.str q⟩)]) := by
  constructor
  · intro hau
    simp [query, hlen, hms, hh, genStage, hd, hg, hau]
  · intro hau haa
    simp [query, hlen, hms, hh, genStage, hd, hg, hau, haa]

/-- Witness for C9: a concrete assistant-append failure yields the
system-error record with only the user turn persisted. -/
theorem C9_memory_failure_not_atomic_witness :
    (query cAsstFail true "what is x" (some "s1")).result =
      systemErrorResult "redis gone" ∧
    (query cAsstFail true "what is x" (some "s1")).appended =
      [("s1", ⟨"user", Json.str "what is x"⟩)] :=
  (C9_memory_failure_not_atomic cAsstFail true "what is x" (some "s1") "s1"
    "redis gone" [] [] "plain text answer" (by decide) rfl rfl rfl rfl).2 rfl rfl

end SecureRAG
